import Mathlib

/-!
Verification of the social-media data-leak monitoring pipeline.

The development shallowly embeds two JavaScript classes:
* `AnalyticsEngine` (threat scoring, correlation analysis, report
  generation and the report cache), and
* `DataLeakDetectionService` (keyword/pattern detection over raw text,
  category classification, risk bucketing).

JavaScript numbers are modelled as rationals (`ℚ`); the non-finite
values produced by `0/0` (`NaN`) and `Math.max()` of an empty spread
(`-Infinity`) are modelled by the explicit `JSNumber` type.
`Math.round` is round-half-up, which coincides with Mathlib's `round`.
Strings are processed through their character lists so that every
matcher is executable.
-/

/-- Model of a JavaScript number that may be non-finite: `fin q` is an
ordinary (rational) number, `nan` models `NaN` (as produced by `0/0`),
`negInf` models `-Infinity` (as produced by `Math.max()` with no
arguments). -/
inductive JSNumber where
  | fin (q : ℚ)
  | nan
  | negInf
deriving DecidableEq, Repr

namespace JSNumber

/-- JavaScript division restricted to the cases the code exercises:
`0/0` (empty-batch average) yields `NaN`; division by a nonzero
denominator is ordinary division. -/
def jsDiv (a b : ℚ) : JSNumber :=
  if b = 0 then JSNumber.nan else JSNumber.fin (a / b)

/-- The `Math.round` lifted to `JSNumber`: `NaN` and `-Infinity` are fixed
points, a finite value is rounded half-up. -/
def jsRound : JSNumber → JSNumber
  | JSNumber.fin q => JSNumber.fin ((round q : ℤ) : ℚ)
  | JSNumber.nan => JSNumber.nan
  | JSNumber.negInf => JSNumber.negInf

/-- The `Math.max` of two values: `-Infinity` is the identity and `NaN` is
absorbing, matching JavaScript. -/
def jsMax : JSNumber → JSNumber → JSNumber
  | JSNumber.fin a, JSNumber.fin b => JSNumber.fin (max a b)
  | JSNumber.negInf, b => b
  | a, JSNumber.negInf => a
  | JSNumber.nan, _ => JSNumber.nan
  | _, JSNumber.nan => JSNumber.nan

/-- The comparison `x >= c` for a JavaScript number `x` and a finite
constant `c`: comparisons against `NaN` are false, and `-Infinity` is
below every constant. -/
def jsGe : JSNumber → ℚ → Bool
  | JSNumber.fin a, c => decide (c ≤ a)
  | JSNumber.nan, _ => false
  | JSNumber.negInf, _ => false

/-- String rendering of a rounded JavaScript number, used in the
interpolated `riskFactors` strings: an integer prints as its decimal
representation, `NaN` prints as "NaN", `-Infinity` as "-Infinity". -/
def jsRoundedStr : JSNumber → String
  | JSNumber.fin q => toString (round q)
  | JSNumber.nan => "NaN"
  | JSNumber.negInf => "-Infinity"

end JSNumber

/-- The `s.toLowerCase()` on ASCII data: lower-case each character. -/
def jsToLower (s : String) : String :=
  ⟨s.data.map Char.toLower⟩

/-- Does `pat` occur as a prefix of `text`? Building block for the
substring test. -/
def charsStartWith : List Char → List Char → Bool
  | [], _ => true
  | _ :: _, [] => false
  | p :: ps, c :: cs => p = c && charsStartWith ps cs

/-- Does `pat` occur as a contiguous substring of `text`? -/
def charsContain (pat : List Char) : List Char → Bool
  | [] => charsStartWith pat []
  | c :: cs => charsStartWith pat (c :: cs) || charsContain pat cs

/-- JavaScript `s.includes(pattern)`: substring containment. -/
def jsIncludes (s pattern : String) : Bool :=
  charsContain pattern.data s.data

/-- The descending-key ordering used to model JavaScript's stable
`Array.prototype.sort` with a comparator of the shape
`(a, b) => key(b) - key(a)`: `a` precedes `b` iff `key b ≤ key a`.
JavaScript's sort is stable and, for such a comparator, produces the
unique stable descending-by-key permutation; `List.insertionSort` with
this relation computes exactly that list. -/
def byKeyDesc (key : α → ℤ) (a b : α) : Prop :=
  key b ≤ key a

instance (key : α → ℤ) : DecidableRel (byKeyDesc key) :=
  fun a b => inferInstanceAs (Decidable (key b ≤ key a))

instance (key : α → ℤ) : IsTotal α (byKeyDesc key) :=
  ⟨fun a b => (le_total (key b) (key a)).imp id id⟩

instance (key : α → ℤ) : IsTrans α (byKeyDesc key) :=
  ⟨fun _ _ _ hab hbc => le_trans hbc hab⟩

/-- Stable descending sort by an integer key: the model of the
JavaScript `sort((a, b) => key(b) - key(a))` call. -/
def jsSortByKeyDesc (key : α → ℤ) (l : List α) : List α :=
  l.insertionSort (byKeyDesc key)

namespace AnalyticsEngine

/-- A `Threat` record as consumed by the analytics engine: platform
identifier, acting username, coarse risk level, declared data-type
label, engagement count, and an optional detection timestamp.
`dataType` is a single string label (the dashboard sets
`dataType: analysis.exposedDataTypes[0] || 'Unknown'`), so
`threat.dataType.includes(dt)` is the JavaScript substring test; an
absent `dataType` is modelled by the empty string, which is falsy in
the source's guards. -/
structure Threat where
  platform : String
  username : String
  riskLevel : String
  dataType : String
  engagement : ℚ
  dateDetected : Option String
deriving DecidableEq, Repr

/-- The fixed base-score table `{ critical: 40, high: 30, medium: 20,
low: 10 }`; the JavaScript lookup `riskScores[threat.riskLevel] || 0`
defaults to 0 for any other level. -/
def riskScores (level : String) : ℚ :=
  if level = "critical" then 40
  else if level = "high" then 30
  else if level = "medium" then 20
  else if level = "low" then 10
  else 0

/-- The fixed platform-reach factor table of `calculateThreatScore`,
keyed by the lower-cased platform name, defaulting to 1.0. -/
def platformReachFactors (p : String) : ℚ :=
  if p = "github" then 3/2
  else if p = "twitter" then 13/10
  else if p = "reddit" then 6/5
  else if p = "linkedin" then 11/10
  else if p = "darkweb" then 2
  else if p = "facebook" then 1
  else if p = "instagram" then 4/5
  else 1

/-- The fixed sensitive data-type list of `calculateThreatScore`. -/
def sensitiveDataTypes : List String :=
  ["API Keys", "Customer Records", "Financial Data", "Database Schema"]

/-- The `AnalyticsEngine.calculateThreatScore`: base score from the risk
level, plus the capped engagement term, multiplied by the platform
reach factor, plus a flat 15 bonus when some sensitive data type
occurs inside the threat's declared data-type label
(`sensitiveDataTypes.some((dt) => threat.dataType.includes(dt))`; the
source's `threat.dataType &&` truthiness guard is equivalent here
because the empty string contains no sensitive label); finally rounded
and clamped to 100. -/
def calculateThreatScore (threat : Threat) : ℤ :=
  let score : ℚ := riskScores threat.riskLevel
  let engagementScore : ℚ := min (threat.engagement / 1000 * 20) 20
  let score := score + engagementScore
  let platformFactor := platformReachFactors (jsToLower threat.platform)
  let score := score * platformFactor
  let score :=
    if sensitiveDataTypes.any (fun dt => jsIncludes threat.dataType dt) then score + 15 else score
  min (round score) 100

end AnalyticsEngine

/-- The ascending-key ordering modelling JavaScript's stable sort with
a comparator `(a, b) => key(a) - key(b)`. -/
def byKeyAsc (key : α → ℤ) (a b : α) : Prop :=
  key a ≤ key b

instance (key : α → ℤ) : DecidableRel (byKeyAsc key) :=
  fun a b => inferInstanceAs (Decidable (key a ≤ key b))

instance (key : α → ℤ) : IsTotal α (byKeyAsc key) :=
  ⟨fun a b => le_total (key a) (key b)⟩

instance (key : α → ℤ) : IsTrans α (byKeyAsc key) :=
  ⟨fun _ _ _ hab hbc => le_trans hab hbc⟩

/-- Stable ascending sort by an integer key: the model of the
JavaScript `sort((a, b) => key(a) - key(b))` call. -/
def jsSortByKeyAsc (key : α → ℤ) (l : List α) : List α :=
  l.insertionSort (byKeyAsc key)

/-- The `[...new Set(l)]`: deduplicate, keeping the first occurrence of
each element and the order of first occurrences, exactly as a
JavaScript `Set` records insertion order. -/
def jsSetDedup [DecidableEq α] (l : List α) : List α :=
  l.foldl (fun acc x => if x ∈ acc then acc else acc ++ [x]) []

/-- Append `v` to the bucket of key `k`, creating the bucket at the end
on first sight of `k`: one step of building a JavaScript object used as
a multimap. -/
def groupPush [DecidableEq κ] (k : κ) (v : α) : List (κ × List α) → List (κ × List α)
  | [] => [(k, [v])]
  | e :: rest => if k = e.1 then (e.1, e.2 ++ [v]) :: rest else e :: groupPush k v rest

/-- Group a list by a key, buckets ordered by first occurrence of their
key and each bucket in input order: the JavaScript
`forEach`/`map[key].push(item)` idiom followed by `Object.entries`. -/
def groupByKey [DecidableEq κ] (key : α → κ) (l : List α) : List (κ × List α) :=
  l.foldl (fun m x => groupPush (key x) x m) []

/-- Lookup in an association list with a default, modelling
`obj[key]` after the `if (!obj[key]) obj[key] = init` idiom. -/
def assocGetD [DecidableEq κ] (m : List (κ × β)) (k : κ) (d : β) : β :=
  match m.find? (fun e => e.1 = k) with
  | some e => e.2
  | none => d

/-- Write a key in an association list: an existing key keeps its
position, a new key is appended, exactly as JavaScript object
assignment interacts with string-key insertion order. -/
def assocSet [DecidableEq κ] (k : κ) (v : β) : List (κ × β) → List (κ × β)
  | [] => [(k, v)]
  | e :: rest => if e.1 = k then (k, v) :: rest else e :: assocSet k v rest

namespace AnalyticsEngine

/-- A correlation record emitted by `identifyCorrelations`: one
constructor per correlation `type` since the two variants carry
different fields. -/
inductive Correlation where
  | multiPlatformExposure (severity : String) (dataType : String)
      (affectedPlatforms : List String) (instanceCount : ℕ) (description : String)
  | repeatOffender (severity : String) (username : String) (threatCount : ℕ)
      (platforms : List String) (description : String)
deriving DecidableEq, Repr

/-- The `AnalyticsEngine.identifyCorrelations`: MULTI_PLATFORM_EXPOSURE
entries (same truthy data type, more than one threat, more than one
distinct platform) followed by REPEAT_OFFENDER entries (same username,
more than one threat), in grouping insertion order. -/
def identifyCorrelations (threats : List Threat) : List Correlation :=
  let dataTypeMap := groupByKey (fun t => t.dataType)
    (threats.filter (fun t => t.dataType ≠ ""))
  let correlations := dataTypeMap.foldl (fun acc entry =>
    if entry.2.length > 1 then
      let platforms := jsSetDedup (entry.2.map (fun t => t.platform))
      if platforms.length > 1 then
        acc ++ [Correlation.multiPlatformExposure "high" entry.1 platforms entry.2.length
          (entry.1 ++ " exposed across " ++ toString platforms.length ++ " platforms")]
      else acc
    else acc) []
  let userMap := groupByKey (fun t => t.username) threats
  userMap.foldl (fun acc entry =>
    if entry.2.length > 1 then
      acc ++ [Correlation.repeatOffender "high" entry.1 entry.2.length
        (jsSetDedup (entry.2.map (fun t => t.platform)))
        ("User " ++ entry.1 ++ " involved in " ++ toString entry.2.length ++
          " threat incidents")]
    else acc) correlations

/-- The `Date`-dependent accessors used by `analyzeThreatPatterns`
(`new Date(s).getHours()` and the locale weekday name). They belong to
the JavaScript runtime, not to the repository, so the engine is
parameterised over them; no claim depends on their values. -/
structure DateLib where
  getHours : String → ℤ
  weekdayName : String → String

/-- Per-platform aggregate of `analyzeThreatPatterns`. -/
structure PlatformAgg where
  count : ℕ
  totalScore : ℤ
deriving DecidableEq, Repr

/-- Per-data-type aggregate of `analyzeThreatPatterns`; `platforms`
keeps `Set` insertion order. -/
structure DataTypeAgg where
  count : ℕ
  platforms : List String
deriving DecidableEq, Repr

/-- The `patterns` object of `analyzeThreatPatterns`. The source
declares `byDayOfWeek` but writes the `day_<name>` counters into
`byTimeOfDay`, so `byDayOfWeek` stays empty. -/
structure Patterns where
  byPlatform : List (String × PlatformAgg)
  byDataType : List (String × DataTypeAgg)
  byRiskLevel : List (String × ℕ)
  byTimeOfDay : List (String × ℕ)
  byDayOfWeek : List (String × ℕ)
  correlations : List Correlation
deriving DecidableEq, Repr

/-- The `AnalyticsEngine.analyzeThreatPatterns`: per-platform counts and
score totals, per-data-type counts with platform sets, per-risk-level
counts, hour/weekday counters for threats carrying a timestamp, and
the correlation list. -/
def analyzeThreatPatterns (dl : DateLib) (threats : List Threat) : Patterns :=
  let byPlatform := threats.foldl (fun m t =>
    let cur := assocGetD m t.platform ⟨0, 0⟩
    assocSet t.platform ⟨cur.count + 1, cur.totalScore + calculateThreatScore t⟩ m) []
  let byDataType := threats.foldl (fun m t =>
    if t.dataType = "" then m
    else
      let cur := assocGetD m t.dataType ⟨0, []⟩
      assocSet t.dataType
        ⟨cur.count + 1,
          if t.platform ∈ cur.platforms then cur.platforms
          else cur.platforms ++ [t.platform]⟩ m) []
  let byRiskLevel := threats.foldl (fun m t =>
    assocSet t.riskLevel (assocGetD m t.riskLevel 0 + 1) m) []
  let byTimeOfDay := threats.foldl (fun m t =>
    match t.dateDetected with
    | none => m
    | some s =>
      let hourKey := toString (dl.getHours s)
      let dayKey := "day_" ++ dl.weekdayName s
      let m := assocSet hourKey (assocGetD m hourKey 0 + 1) m
      assocSet dayKey (assocGetD m dayKey 0 + 1) m) []
  { byPlatform := byPlatform
    byDataType := byDataType
    byRiskLevel := byRiskLevel
    byTimeOfDay := byTimeOfDay
    byDayOfWeek := []
    correlations := identifyCorrelations threats }

/-- An entry of a top-threats list: the spread threat record plus its
computed score and its post-sort rank. -/
structure ScoredThreat where
  rank : ℕ
  threat : Threat
  threatScore : ℤ
deriving DecidableEq, Repr

/-- The `AnalyticsEngine.identifyTopThreats`: score every threat (into a
fresh array, so the caller's array is untouched), sort by descending
score, keep the first `limit`, and assign ranks from 1. -/
def identifyTopThreats (threats : List Threat) (limit : ℕ) : List ScoredThreat :=
  let scored := threats.map (fun t => (t, calculateThreatScore t))
  let sorted := jsSortByKeyDesc (fun p => p.2) scored
  (sorted.take limit).mapIdx (fun i p => ⟨i + 1, p.1, p.2⟩)

/-- One immediate-action record of `getImmediateActions`. -/
structure ActionItem where
  priority : ℕ
  action : String
  timeframe : String
  owner : String
deriving DecidableEq, Repr

/-- The `AnalyticsEngine.getImmediateActions`: conditional action items
(API exposure, customer data, viral engagement, dark-web activity)
sorted ascending by priority. The source's `t.dataType &&` guard is
equivalent to the plain substring test because the empty string
contains nothing. -/
def getImmediateActions (threats : List Threat) : List ActionItem :=
  let actions : List ActionItem := []
  let actions :=
    if threats.any (fun t => jsIncludes t.dataType "API") then
      actions ++ [⟨1, "Revoke all exposed API keys", "IMMEDIATE", "Security Team"⟩]
    else actions
  let actions :=
    if threats.any (fun t => jsIncludes t.dataType "Customer") then
      actions ++ [⟨2, "Initiate customer breach notification", "24 hours", "Legal/PR"⟩]
    else actions
  let actions :=
    if (threats.filter (fun t => t.engagement > 5000)).length > 0 then
      actions ++ [⟨3, "Launch crisis communication response", "4 hours", "Communications"⟩]
    else actions
  let actions :=
    if threats.any (fun t => t.platform = "Dark Web") then
      actions ++
        [⟨1, "Engage dark web monitoring specialists", "IMMEDIATE", "Threat Intelligence"⟩]
    else actions
  jsSortByKeyAsc (fun a => (a.priority : ℤ)) actions

/-- The record returned by `assessOverallRisk`. -/
structure RiskAssessment where
  level : String
  score : JSNumber
  maxScore : JSNumber
  riskFactors : List String
  immediateActions : List ActionItem
deriving DecidableEq, Repr

/-- The `AnalyticsEngine.assessOverallRisk`: average and maximum of the
per-threat scores (`0/0` average of an empty batch is `NaN`,
`Math.max()` of an empty spread is `-Infinity`), critical count, and
the first-match-wins verdict chain
CRITICAL / HIGH / MEDIUM / LOW. -/
def assessOverallRisk (threats : List Threat) : RiskAssessment :=
  let scores := threats.map (fun t => ((calculateThreatScore t : ℤ) : ℚ))
  let avgScore := JSNumber.jsDiv (scores.foldl (· + ·) 0) (scores.length : ℚ)
  let maxScore := scores.foldl (fun m s => m.jsMax (JSNumber.fin s)) JSNumber.negInf
  let criticalCount := (threats.filter (fun t => t.riskLevel = "critical")).length
  let overallRisk :=
    if maxScore.jsGe 80 || decide (criticalCount ≥ 5) then "CRITICAL"
    else if avgScore.jsGe 60 || decide (criticalCount ≥ 2) then "HIGH"
    else if avgScore.jsGe 40 then "MEDIUM"
    else "LOW"
  { level := overallRisk
    score := avgScore.jsRound
    maxScore := maxScore.jsRound
    riskFactors := [
      toString criticalCount ++ " critical threats detected",
      "Average threat score: " ++ avgScore.jsRoundedStr ++ "/100",
      "Maximum threat score: " ++ maxScore.jsRoundedStr ++ "/100",
      "Total unique platforms affected: " ++
        toString (jsSetDedup (threats.map (fun t => t.platform))).length]
    immediateActions := getImmediateActions threats }

/-- One tier of the static recommended-action checklist. -/
structure ActionChecklist where
  timeframe : String
  actions : List String
deriving DecidableEq, Repr

/-- The `AnalyticsEngine.generateActionItems`: the fixed three-tier
checklist, independent of the input batch. -/
def generateActionItems : List ActionChecklist :=
  [⟨"IMMEDIATE (0-2 hours)",
    ["Alert security operations center (SOC)",
     "Notify CISO and executive leadership",
     "Begin threat intelligence assessment",
     "Prepare crisis communication template"]⟩,
   ⟨"SHORT-TERM (2-24 hours)",
    ["Conduct full damage assessment",
     "Identify all affected systems and data",
     "Begin incident response procedures",
     "Activate external incident response teams if needed",
     "Prepare customer/stakeholder notification"]⟩,
   ⟨"MEDIUM-TERM (1-7 days)",
    ["Complete root cause analysis",
     "Implement temporary mitigations",
     "Execute customer notification campaign",
     "File incident reports with regulators if required",
     "Update security posture"]⟩]

/-- The record returned by `calculateDispersion`. The source stores
`stdDev.toFixed(2)`; since the standard deviation is an irrational
square root in general, the model carries the exact variance
(`stdDev²`) instead, and the level thresholds `stdDev > 5` /
`stdDev > 2` become `variance > 25` / `variance > 4`, which is
equivalent because squaring is monotone on non-negatives and every
comparison against `NaN` is false on both encodings. -/
structure Dispersion where
  platformCount : ℕ
  distribution : List (String × ℕ)
  variance : JSNumber
  dispersionLevel : String
deriving DecidableEq, Repr

/-- The strict comparison `x > c`, false for `NaN` and `-Infinity`. -/
def jsGt : JSNumber → ℚ → Bool
  | JSNumber.fin a, c => decide (c < a)
  | JSNumber.nan, _ => false
  | JSNumber.negInf, _ => false

/-- The `AnalyticsEngine.calculateDispersion`: per-platform counts, their
population variance (NaN on an empty batch via `0/0`), and the
bucketed dispersion level. -/
def calculateDispersion (threats : List Threat) : Dispersion :=
  let platformCounts : List (String × ℕ) := threats.foldl (fun m t =>
    assocSet t.platform (assocGetD m t.platform 0 + 1) m) []
  let values : List ℚ := platformCounts.map (fun e => (e.2 : ℚ))
  let avg := JSNumber.jsDiv (values.foldl (· + ·) 0) (values.length : ℚ)
  let variance :=
    match avg with
    | JSNumber.fin a =>
        JSNumber.jsDiv (values.foldl (fun s v => s + (v - a) ^ 2) 0) (values.length : ℚ)
    | _ => JSNumber.nan
  { platformCount := platformCounts.length
    distribution := platformCounts
    variance := variance
    dispersionLevel :=
      if jsGt variance 25 then "HIGH" else if jsGt variance 4 then "MEDIUM" else "LOW" }

/-- The `s.substring(0, 10)`: the date-key prefix used by
`analyzeTimeline`. -/
def jsSubstring10 (s : String) : String :=
  ⟨s.data.take 10⟩

/-- The record returned by `analyzeTimeline` when it does not throw. -/
structure Timeline where
  dateRangeStart : Option String
  dateRangeEnd : Option String
  threatsPerDay : List (String × ℕ)
  trend : String
  peakDay : String
deriving DecidableEq, Repr

/-- The `AnalyticsEngine.analyzeTimeline`: per-day counts keyed by the
10-character date prefix, lexicographically sorted date range, the
UP/DOWN/STABLE trend, and the peak day computed by
`Object.keys(timeline).reduce((a, b) => timeline[a] > timeline[b] ? a : b)`.
That `reduce` has no initial value, so on an empty `timeline` (empty
batch, or no threat carrying `dateDetected`) JavaScript throws a
`TypeError`; the model returns `Except.error` there. -/
def analyzeTimeline (threats : List Threat) : Except String Timeline :=
  let timeline := threats.foldl (fun m t =>
    match t.dateDetected with
    | none => m
    | some d =>
      let key := jsSubstring10 d
      assocSet key (assocGetD m key 0 + 1) m) []
  let dates := (timeline.map (fun e => e.1)).insertionSort (· ≤ ·)
  let trend :=
    if dates.length > 1 then
      if assocGetD timeline (dates.getLastD "") 0 > assocGetD timeline (dates.headD "") 0
      then "UP" else "DOWN"
    else "STABLE"
  match timeline.map (fun e => e.1) with
  | [] => Except.error "Reduce of empty array with no initial value"
  | k :: ks =>
    Except.ok
      { dateRangeStart := dates.head?
        dateRangeEnd := dates.getLast?
        threatsPerDay := timeline
        trend := trend
        peakDay := ks.foldl (fun a b =>
          if assocGetD timeline a 0 > assocGetD timeline b 0 then a else b) k }

/-- The `summary` block of `generateThreatReport`; the average score
of an empty batch is `NaN` via `0/0`. -/
structure Summary where
  totalThreats : ℕ
  criticalCount : ℕ
  highCount : ℕ
  uniquePlatforms : ℕ
  uniqueDataTypes : ℕ
  averageThreatScore : JSNumber
deriving DecidableEq, Repr

/-- The `summary` object literal of `generateThreatReport`. -/
def buildSummary (threats : List Threat) : Summary :=
  { totalThreats := threats.length
    criticalCount := (threats.filter (fun t => t.riskLevel = "critical")).length
    highCount := (threats.filter (fun t => t.riskLevel = "high")).length
    uniquePlatforms := (jsSetDedup (threats.map (fun t => t.platform))).length
    uniqueDataTypes := (jsSetDedup (threats.map (fun t => t.dataType))).length
    averageThreatScore :=
      (JSNumber.jsDiv ((threats.foldl (fun s t => s + calculateThreatScore t) 0 : ℤ) : ℚ)
        (threats.length : ℚ)).jsRound }

/-- The `metrics` block of the report. The source formats
`threatDensity` with `toFixed(2)`; the model keeps the exact
rational. -/
structure Metrics where
  threatDensity : ℚ
  platformDispersion : Dispersion
  timelineAnalysis : Timeline
deriving DecidableEq, Repr

/-- A generated report, as cached by `generateThreatReport`.
`generatedAt` is the millisecond timestamp `Date.now()` at generation
time; `reportId` is the `report_<timestamp>` key. -/
structure Report where
  reportId : String
  generatedAt : ℤ
  timeframe : String
  summary : Summary
  topThreats : List ScoredThreat
  patterns : Patterns
  riskAssessment : RiskAssessment
  recommendations : List ActionChecklist
  metrics : Metrics
deriving DecidableEq, Repr

/-- The `AnalyticsEngine.generateThreatReport`: build the report, cache it
under the fresh `report_<now>` key, and return it together with the
updated cache. `analyzeTimeline` throws on a batch with no dated
threats, in which case the whole call throws and the cache is left
unchanged, exactly as in JavaScript (the cache insertion is the last
effect). -/
def generateThreatReport (dl : DateLib) (now : ℤ) (threats : List Threat)
    (timeframe : String) (cache : List (String × Report)) :
    Except String (Report × List (String × Report)) :=
  let reportId := "report_" ++ toString now
  match analyzeTimeline threats with
  | Except.error e => Except.error e
  | Except.ok timeline =>
    let report : Report :=
      { reportId := reportId
        generatedAt := now
        timeframe := timeframe
        summary := buildSummary threats
        topThreats := identifyTopThreats threats 10
        patterns := analyzeThreatPatterns dl threats
        riskAssessment := assessOverallRisk threats
        recommendations := generateActionItems
        metrics :=
          { threatDensity := (threats.length : ℚ) / 7
            platformDispersion := calculateDispersion threats
            timelineAnalysis := timeline } }
    Except.ok (report, cache ++ [(reportId, report)])

/-- The `AnalyticsEngine.getCachedReport`: cache lookup by report id. -/
def getCachedReport (cache : List (String × Report)) (reportId : String) : Option Report :=
  (cache.find? (fun e => e.1 = reportId)).map (fun e => e.2)

/-- The `AnalyticsEngine.clearOldReports`: delete every cached report whose
`generatedAt` lies strictly before `now` minus 30 days (in
milliseconds); deleting while iterating a JavaScript `Map` visits every
entry, so the result is exactly the filter keeping the younger
reports. -/
def clearOldReports (now : ℤ) (cache : List (String × Report)) : List (String × Report) :=
  let thirtyDaysAgo := now - 30 * 24 * 60 * 60 * 1000
  cache.filter (fun e => ¬ (e.2.generatedAt < thirtyDaysAgo))

end AnalyticsEngine

/-- Case-insensitive prefix test (ASCII), for literal patterns carrying
the `i` flag. -/
def charsStartWithCI : List Char → List Char → Bool
  | [], _ => true
  | _ :: _, [] => false
  | p :: ps, c :: cs => (Char.toLower p = Char.toLower c) && charsStartWithCI ps cs


/-!
Regular-expression machinery.

The detection service scans text with JavaScript global regexes. The
model implements a small backtracking matcher: a `Matcher` maps a
character list to the list of `(consumed, rest)` outcomes in
backtracking priority order (greedy alternatives first), and the
global scan repeatedly takes the priority-first match at the leftmost
matching position, then resumes after it — exactly the
`String.prototype.match` semantics with the `g` flag for patterns that
cannot match the empty string.
-/

/-- A backtracking matcher: all `(consumed, rest)` outcomes at the
start of the input, best (greedy-first) outcome first. -/
def Matcher : Type :=
  List Char → List (Nat × List Char)

/-- Match one character satisfying `p`. -/
def mChar (p : Char → Bool) : Matcher := fun s =>
  match s with
  | [] => []
  | c :: cs => if p c then [(1, cs)] else []

/-- Match a literal character. -/
def mLit (c : Char) : Matcher :=
  mChar (fun x => x = c)

/-- Sequencing with full backtracking: outcomes of the first matcher in
priority order, each continued by the second. -/
def mSeq (m1 m2 : Matcher) : Matcher := fun s =>
  (m1 s).flatMap (fun r => (m2 r.2).map (fun r' => (r.1 + r'.1, r'.2)))

/-- Greedy bounded repetition `p{lo,hi}` of a character class: all
consumable lengths from the longest available (at most `hi`) down to
`lo`. -/
def mRepRange (p : Char → Bool) (lo hi : Nat) : Matcher := fun s =>
  let m := min (s.takeWhile p).length hi
  (List.range (m + 1 - lo)).map (fun i => (m - i, s.drop (m - i)))

/-- Greedy unbounded repetition `p{lo,}` of a character class. -/
def mRepAtLeast (p : Char → Bool) (lo : Nat) : Matcher := fun s =>
  let m := (s.takeWhile p).length
  (List.range (m + 1 - lo)).map (fun i => (m - i, s.drop (m - i)))

/-- Greedy optional character `p?`: prefer consuming it. -/
def mOpt (p : Char → Bool) : Matcher := fun s =>
  match s with
  | [] => [(0, [])]
  | c :: cs => if p c then [(1, cs), (0, c :: cs)] else [(0, c :: cs)]

/-- Zero-width assertion on the rest of the input (used for the
trailing word boundary); participates in backtracking. -/
def mAssert (f : List Char → Bool) : Matcher := fun s =>
  if f s then [(0, s)] else []

/-- Case-insensitive literal word (the `i` flag on a literal
pattern). -/
def mLitCI (pat : List Char) : Matcher := fun s =>
  if charsStartWithCI pat s then [(pat.length, s.drop pat.length)] else []

/-- The length of the priority-first match at this position, if any. -/
def mFirst (m : Matcher) (s : List Char) : Option Nat :=
  ((m s).head?).map (fun r => r.1)

/-- One pass of the global scan: at each position whose left context
satisfies `startOk` (used for a leading word boundary), take the
priority-first match, record `(index, matched characters)`, and resume
right after it; otherwise advance one character. `fuel` bounds the
recursion; every step consumes at least one character, so
`length + 1` fuel never runs out. -/
def scanAllAux (m : Matcher) (startOk : Option Char → Bool) :
    Nat → Nat → Option Char → List Char → List (Nat × List Char)
  | 0, _, _, _ => []
  | _ + 1, _, _, [] => []
  | fuel + 1, pos, prev, c :: cs =>
    match if startOk prev then mFirst m (c :: cs) else none with
    | some n =>
      if n ≥ 1 then
        (pos, (c :: cs).take n) ::
          scanAllAux m startOk fuel (pos + n) ((c :: cs).take n).getLast? ((c :: cs).drop n)
      else
        scanAllAux m startOk fuel (pos + 1) (some c) cs
    | none => scanAllAux m startOk fuel (pos + 1) (some c) cs

/-- All matches of a global regex over a string, with their indices. -/
def scanWithIndex (m : Matcher) (startOk : Option Char → Bool) (s : List Char) :
    List (Nat × List Char) :=
  scanAllAux m startOk (s.length + 1) 0 none s

/-- All matched substrings of a global regex over a string. -/
def scanMatches (m : Matcher) (startOk : Option Char → Bool) (s : List Char) : List String :=
  (scanWithIndex m startOk s).map (fun r => String.mk r.2)

/-- The `[A-Za-z0-9]`. -/
def isAlnumJs (c : Char) : Bool :=
  c.isUpper || c.isLower || c.isDigit

/-- The `[A-Za-z]`. -/
def isAlphaJs (c : Char) : Bool :=
  c.isUpper || c.isLower

/-- A JavaScript word character `[A-Za-z0-9_]`, for `\b`. -/
def isWordChar (c : Char) : Bool :=
  isAlnumJs c || c = '_'



namespace DataLeakDetectionService

/-- The monitored keyword list of the service constructor. -/
def monitoredKeywords : List String :=
  ["credentials", "API key", "password", "secret", "token", "database", "schema",
   "employee records", "customer data", "confidential", "proprietary", "source code",
   "vulnerability", "exploit", "breach"]

/-- One `findOccurrences` record: the `\\S*keyword\\S*` span and its
index. -/
structure KeywordOccurrence where
  text : String
  index : Nat
deriving DecidableEq, Repr

/-- One matched monitored keyword: the keyword, its case-insensitive
occurrence count, and the display spans. -/
structure KeywordMatch where
  keyword : String
  count : Nat
  occurrences : List KeywordOccurrence
deriving DecidableEq, Repr

/-- The matcher of `new RegExp(keyword, 'gi')` for a literal keyword
(none of the monitored keywords contains a regex metacharacter). -/
def keywordMatcher (kw : String) : Matcher :=
  mLitCI kw.data

/-- The `\\S`, a non-whitespace character. -/
def isNonSpace (c : Char) : Bool :=
  !c.isWhitespace

/-- The matcher of `(\\S*keyword\\S*)` with the `gi` flags, used by
`findOccurrences`. -/
def occurrenceMatcher (kw : String) : Matcher :=
  mSeq (mRepAtLeast isNonSpace 0) (mSeq (mLitCI kw.data) (mRepAtLeast isNonSpace 0))

/-- The `DataLeakDetectionService.findOccurrences`: every global match of
`(\\S*keyword\\S*)` with its index. -/
def findOccurrences (content keyword : String) : List KeywordOccurrence :=
  (scanWithIndex (occurrenceMatcher keyword) (fun _ => true) content.data).map
    (fun r => { text := String.mk r.2, index := r.1 })

/-- The `DataLeakDetectionService.detectKeywords`: for each monitored
keyword contained case-insensitively in the content, its global
case-insensitive match count and the occurrence spans, in monitored
list order. -/
def detectKeywords (content : String) : List KeywordMatch :=
  monitoredKeywords.foldl (fun acc kw =>
    if jsIncludes (jsToLower content) (jsToLower kw) then
      acc ++
        [{ keyword := kw
           count := (scanWithIndex (keywordMatcher kw) (fun _ => true) content.data).length
           occurrences := findOccurrences content kw }]
    else acc) []

/-- One structural-pattern report of `detectSuspiciousPatterns`. The
source field `matches` is spelled `matches'` here because `matches` is
a reserved word in Lean. -/
structure PatternHit where
  type : String
  severity : String
  matches' : List String
  count : Nat
deriving DecidableEq, Repr

/-- The matcher of `/([A-Za-z0-9]{32,})/g`. -/
def apiKeyRegex : Matcher :=
  mRepAtLeast isAlnumJs 32

/-- All API-key-like matches in the content. -/
def apiKeyMatches (content : String) : List String :=
  scanMatches apiKeyRegex (fun _ => true) content.data

/-- The matcher of `/(?:[0-9]{1,3}\\.){3}[0-9]{1,3}/g`. -/
def ipRegex : Matcher :=
  mSeq (mSeq (mRepRange Char.isDigit 1 3) (mLit '.'))
    (mSeq (mSeq (mRepRange Char.isDigit 1 3) (mLit '.'))
      (mSeq (mSeq (mRepRange Char.isDigit 1 3) (mLit '.'))
        (mRepRange Char.isDigit 1 3)))

/-- All IP-address matches in the content. -/
def ipMatches (content : String) : List String :=
  scanMatches ipRegex (fun _ => true) content.data

/-- The local-part class `[a-zA-Z0-9._%+-]`. -/
def isEmailLocalChar (c : Char) : Bool :=
  isAlnumJs c || c = '.' || c = '_' || c = '%' || c = '+' || c = '-'

/-- The domain class `[a-zA-Z0-9.-]`. -/
def isEmailDomainChar (c : Char) : Bool :=
  isAlnumJs c || c = '.' || c = '-'

/-- The matcher of
`/[a-zA-Z0-9._%+-]+@[a-zA-Z0-9.-]+\\.[a-zA-Z]{2,}/g`. -/
def emailRegex : Matcher :=
  mSeq (mRepAtLeast isEmailLocalChar 1)
    (mSeq (mLit '@')
      (mSeq (mRepAtLeast isEmailDomainChar 1)
        (mSeq (mLit '.') (mRepAtLeast isAlphaJs 2))))

/-- All email-address matches in the content. -/
def emailMatches (content : String) : List String :=
  scanMatches emailRegex (fun _ => true) content.data

/-- The separator class `[\\s-]`. -/
def isCcSep (c : Char) : Bool :=
  c.isWhitespace || c = '-'

/-- The matcher of
`/\\b[0-9]{4}[\\s-]?[0-9]{4}[\\s-]?[0-9]{4}[\\s-]?[0-9]{4}\\b/g`
past its leading boundary: the sixteen digits with optional separators
followed by the trailing word-boundary assertion. -/
def ccRegex : Matcher :=
  let d4 := mRepRange Char.isDigit 4 4
  let sep := mOpt isCcSep
  mSeq (mSeq d4 (mSeq sep (mSeq d4 (mSeq sep (mSeq d4 (mSeq sep d4))))))
    (mAssert (fun rest =>
      match rest with
      | [] => true
      | c :: _ => !isWordChar c))

/-- The leading `\\b` of the card pattern: the first matched character
is a digit, so the boundary holds exactly when the previous character
is absent or not a word character. -/
def ccStartOk : Option Char → Bool
  | none => true
  | some c => !isWordChar c

/-- All payment-card-like matches in the content. -/
def ccMatches (content : String) : List String :=
  scanMatches ccRegex ccStartOk content.data

/-- The `content.match(/mongodb|postgresql|mysql|oracle/i)` viewed as a
boolean: the content contains one of the engine names
case-insensitively. -/
def dbConnectionHit (content : String) : Bool :=
  jsIncludes (jsToLower content) "mongodb" || jsIncludes (jsToLower content) "postgresql" ||
    jsIncludes (jsToLower content) "mysql" || jsIncludes (jsToLower content) "oracle"

/-- The `DataLeakDetectionService.detectSuspiciousPatterns`: the five
structural detectors, in source order. The API-key and email reports
slice their example lists to the first 5; the IP-address and
payment-card reports push the full match lists; every `count` is the
full match count, with the datastore report fixed at a single example
and a count of 1. -/
def detectSuspiciousPatterns (content : String) : List PatternHit :=
  let patterns : List PatternHit := []
  let api := apiKeyMatches content
  let patterns :=
    if api.length > 0 then
      patterns ++ [{ type := "API_KEY", severity := "critical",
                     matches' := api.take 5, count := api.length }]
    else patterns
  let ips := ipMatches content
  let patterns :=
    if ips.length > 0 then
      patterns ++ [{ type := "IP_ADDRESS", severity := "high",
                     matches' := ips, count := ips.length }]
    else patterns
  let emails := emailMatches content
  let patterns :=
    if emails.length > 0 then
      patterns ++ [{ type := "EMAIL_ADDRESS", severity := "medium",
                     matches' := emails.take 5, count := emails.length }]
    else patterns
  let ccs := ccMatches content
  let patterns :=
    if ccs.length > 0 then
      patterns ++ [{ type := "CREDIT_CARD", severity := "critical",
                     matches' := ccs, count := ccs.length }]
    else patterns
  if dbConnectionHit content then
    patterns ++ [{ type := "DATABASE_CONNECTION", severity := "critical",
                   matches' := ["Potential database credentials found"], count := 1 }]
  else patterns

/-- The `new Set()` insertion: add the label if it is not yet present. -/
def setAdd (l : List String) (x : String) : List String :=
  if x ∈ l then l else l ++ [x]

/-- The `DataLeakDetectionService.classifyDataExposure`: keyword-driven
category inference followed by raw-content checks, with `Set`
semantics (first-insertion order, deduplicated). -/
def classifyDataExposure (content : String) (keywords : List KeywordMatch) : List String :=
  let dataTypes := keywords.foldl (fun dts kw =>
    let k := jsToLower kw.keyword
    let dts := if jsIncludes k "employee" || jsIncludes k "staff" then
        setAdd dts "Employee Information" else dts
    let dts := if jsIncludes k "customer" || jsIncludes k "user" then
        setAdd dts "Customer Records" else dts
    let dts := if jsIncludes k "api" || jsIncludes k "key" then
        setAdd dts "API Keys/Secrets" else dts
    let dts := if jsIncludes k "database" || jsIncludes k "schema" then
        setAdd dts "Database Schema" else dts
    let dts := if jsIncludes k "password" || jsIncludes k "credentials" then
        setAdd dts "Authentication Credentials" else dts
    let dts := if jsIncludes k "source" || jsIncludes k "code" then
        setAdd dts "Source Code" else dts
    if jsIncludes k "financial" || jsIncludes k "salary" then
      setAdd dts "Financial Data" else dts) []
  let contentLower := jsToLower content
  let dataTypes := if jsIncludes contentLower "salary" || jsIncludes contentLower "payment" then
      setAdd dataTypes "Financial Data" else dataTypes
  let dataTypes :=
    if jsIncludes contentLower "vulnerability" || jsIncludes contentLower "exploit" then
      setAdd dataTypes "Security Vulnerability" else dataTypes
  if jsIncludes contentLower "project" || jsIncludes contentLower "roadmap" then
    setAdd dataTypes "Strategic Information" else dataTypes

/-- The `DataLeakDetectionService.calculateRiskLevel`: accumulate severity
scores per pattern report, the capped keyword-count term and the
category term, then bucket at 70/50/30. -/
def calculateRiskLevel (keywords : List KeywordMatch) (patterns : List PatternHit)
    (dataTypes : List String) : String :=
  let riskScore := patterns.foldl (fun s p =>
    if p.severity = "critical" then s + 40
    else if p.severity = "high" then s + 25
    else if p.severity = "medium" then s + 15
    else s) 0
  let keywordCount := keywords.foldl (fun s kw => s + kw.count) 0
  let riskScore := riskScore + min (keywordCount * 5) 30
  let riskScore := riskScore + dataTypes.length * 8
  if riskScore ≥ 70 then "critical"
  else if riskScore ≥ 50 then "high"
  else if riskScore ≥ 30 then "medium"
  else "low"

/-- The `DataLeakDetectionService.calculateConfidenceScore`. -/
def calculateConfidenceScore (keywords : List KeywordMatch)
    (patterns : List PatternHit) : Nat :=
  let confidence := min (patterns.length * 15) 50
  let confidence := confidence + min (keywords.length * 5) 30
  let confidence := if patterns.length > 0 then confidence + 10 else confidence
  let confidence := if keywords.length > 3 then confidence + 10 else confidence
  min confidence 100

/-- The per-item analysis record of `analyzeSocialMediaContent`.
`detectedLeaks` is declared by the source but never filled in this
function, so it stays empty. -/
structure Analysis where
  timestamp : String
  platform : String
  username : String
  originalContent : String
  detectedLeaks : List String
  riskLevel : String
  dataExposed : List String
  matchedKeywords : List KeywordMatch
  suspiciousElements : List PatternHit
  confidenceScore : Nat
deriving DecidableEq, Repr

/-- The `DataLeakDetectionService.analyzeSocialMediaContent`: the complete
per-item pipeline — keywords, structural patterns, exposure
categories, risk level and confidence. -/
def analyzeSocialMediaContent (content platform username timestamp : String) : Analysis :=
  let keywordMatches := detectKeywords content
  let patterns := detectSuspiciousPatterns content
  let dataTypes := classifyDataExposure content keywordMatches
  { timestamp := timestamp
    platform := platform
    username := username
    originalContent := content
    detectedLeaks := []
    riskLevel := calculateRiskLevel keywordMatches patterns dataTypes
    dataExposed := dataTypes
    matchedKeywords := keywordMatches
    suspiciousElements := patterns
    confidenceScore := calculateConfidenceScore keywordMatches patterns }

/-- The severity rank table of `identifyTopThreats` and
`determineSeverity`: `{ critical: 4, high: 3, medium: 2, low: 1 }`.
Off-table levels are mapped to 0; the JavaScript lookup is `undefined`
there, making the sort comparator return `NaN`, so the model is exact
on the four levels the analyzer produces (the theorems that use it
assume them). -/
def severityMap (level : String) : ℤ :=
  if level = "critical" then 4
  else if level = "high" then 3
  else if level = "medium" then 2
  else if level = "low" then 1
  else 0

/-- One entry of the service's top-threats list. -/
structure TopThreatEntry where
  rank : Nat
  platform : String
  username : String
  riskLevel : String
  dataExposed : List String
  confidenceScore : Nat
deriving DecidableEq, Repr

/-- The `DataLeakDetectionService.identifyTopThreats`: sorts the argument
array **in place** by descending severity rank (`Array.prototype.sort`
mutates its receiver), takes the first 5 and assigns ranks. The model
returns the report entries together with the new state of the caller's
array. -/
def identifyTopThreats (leakAnalyses : List Analysis) :
    List TopThreatEntry × List Analysis :=
  let sorted := jsSortByKeyDesc (fun a => severityMap a.riskLevel) leakAnalyses
  ((sorted.take 5).mapIdx (fun i a =>
    { rank := i + 1
      platform := a.platform
      username := a.username
      riskLevel := a.riskLevel
      dataExposed := a.dataExposed
      confidenceScore := a.confidenceScore }), sorted)

/-- One recommendation of `generateRecommendations`. -/
structure Recommendation where
  priority : String
  action : String
  target : String
deriving DecidableEq, Repr

/-- The `DataLeakDetectionService.generateRecommendations`: conditional
recommendations followed by the two unconditional ones. -/
def generateRecommendations (analysis : Analysis) : List Recommendation :=
  let recs : List Recommendation := []
  let recs :=
    if analysis.riskLevel = "critical" then
      recs ++
        [{ priority := "URGENT",
           action := "Immediately revoke and rotate all exposed credentials",
           target := "Security Team" },
         { priority := "URGENT",
           action := "Issue press release acknowledging the data exposure",
           target := "PR/Communications" }]
    else recs
  let recs :=
    if analysis.suspiciousElements.any (fun el => el.type = "API_KEY") then
      recs ++ [{ priority := "HIGH", action := "Regenerate all exposed API keys immediately",
                 target := "DevOps/Security" }]
    else recs
  let recs :=
    if analysis.suspiciousElements.any (fun el => el.type = "CREDIT_CARD") then
      recs ++ [{ priority := "CRITICAL", action := "Contact payment processor and file fraud report",
                 target := "Finance/Legal" }]
    else recs
  let recs :=
    if "Employee Information" ∈ analysis.dataExposed then
      recs ++ [{ priority := "HIGH",
                 action := "Notify affected employees and offer credit monitoring",
                 target := "HR" }]
    else recs
  let recs :=
    if "Customer Records" ∈ analysis.dataExposed then
      recs ++ [{ priority := "HIGH",
                 action := "Prepare customer notification and breach disclosure",
                 target := "Legal/Compliance" }]
    else recs
  recs ++
    [{ priority := "MEDIUM", action := "Request content removal from " ++ analysis.platform,
       target := "Social Media Management" },
     { priority := "MEDIUM", action := "File incident report and document for audit trail",
       target := "Risk Management" }]

/-- One aggregated recommendation of `aggregateRecommendations`. -/
structure AggRecommendation where
  priority : String
  action : String
  target : String
  frequency : Nat
  relatedIncidents : List (String × String)
deriving DecidableEq, Repr

/-- The `DataLeakDetectionService.aggregateRecommendations`: bucket the
per-analysis recommendations by action text, count frequencies and
collect `(platform, username)` incidents, then sort by descending
frequency and keep the top 10. -/
def aggregateRecommendations (leakAnalyses : List Analysis) : List AggRecommendation :=
  let recMap := leakAnalyses.foldl (fun m analysis =>
    (generateRecommendations analysis).foldl (fun m r =>
      let cur := assocGetD m r.action
        { priority := r.priority, action := r.action, target := r.target,
          frequency := 0, relatedIncidents := [] }
      assocSet r.action
        { cur with
          frequency := cur.frequency + 1
          relatedIncidents := cur.relatedIncidents ++ [(analysis.platform, analysis.username)] }
        m) m) []
  (jsSortByKeyDesc (fun e => (e.frequency : ℤ)) (recMap.map (fun e => e.2))).take 10

/-- The service-level threat report of
`DataLeakDetectionService.generateThreatReport`. -/
structure ServiceReport where
  generated : ℤ
  timeframe : String
  totalIncidents : Nat
  criticalIncidents : Nat
  highRiskIncidents : Nat
  affectedPlatforms : List String
  dataTypesExposed : List String
  topThreats : List TopThreatEntry
  recommendations : List AggRecommendation
deriving DecidableEq, Repr

/-- The `DataLeakDetectionService.generateThreatReport`: the object-literal
fields are evaluated in source order, so the summary counts read the
array in its original order, then `identifyTopThreats` sorts the
caller's array in place, and `aggregateRecommendations` already sees
the sorted array. The model returns the report together with the final
state of the caller's array. -/
def generateThreatReport (now : ℤ) (leakAnalyses : List Analysis) (timeframe : String) :
    ServiceReport × List Analysis :=
  let totalIncidents := leakAnalyses.length
  let criticalIncidents := (leakAnalyses.filter (fun l => l.riskLevel = "critical")).length
  let highRiskIncidents := (leakAnalyses.filter (fun l => l.riskLevel = "high")).length
  let affectedPlatforms := jsSetDedup (leakAnalyses.map (fun l => l.platform))
  let dataTypesExposed := jsSetDedup (leakAnalyses.flatMap (fun l => l.dataExposed))
  let topPair := identifyTopThreats leakAnalyses
  let recommendations := aggregateRecommendations topPair.2
  ({ generated := now
     timeframe := timeframe
     totalIncidents := totalIncidents
     criticalIncidents := criticalIncidents
     highRiskIncidents := highRiskIncidents
     affectedPlatforms := affectedPlatforms
     dataTypesExposed := dataTypesExposed
     topThreats := topPair.1
     recommendations := recommendations }, topPair.2)

end DataLeakDetectionService


namespace Claims

/-- The base table exactly as claim C1 states it, defined on the four
named risk levels. -/
def c1Base (level : String) : ℚ :=
  if level = "critical" then 40
  else if level = "high" then 30
  else if level = "medium" then 20
  else if level = "low" then 10
  else 0

/-- The bonus exactly as claim C1 states it: 15 if the threat's
declared data type intersects the fixed sensitive-category list (some
sensitive category occurs in the declared label), else 0. -/
def c1Bonus (t : AnalyticsEngine.Threat) : ℚ :=
  if ∃ dt ∈ AnalyticsEngine.sensitiveDataTypes, jsIncludes t.dataType dt then 15 else 0

/-- The scoring formula exactly as claim C1 states it:
`min(round((base + min(engagement/1000*20, 20)) * platformFactor + bonus), 100)`. -/
def c1Formula (t : AnalyticsEngine.Threat) : ℤ :=
  min (round ((c1Base t.riskLevel + min (t.engagement / 1000 * 20) 20) *
      AnalyticsEngine.platformReachFactors (jsToLower t.platform) + c1Bonus t)) 100

/-- The maximum per-item score of a batch, as claim C5 speaks of it. -/
def c5MaxScore (threats : List AnalyticsEngine.Threat) : ℚ :=
  ((threats.map (fun t => ((AnalyticsEngine.calculateThreatScore t : ℤ) : ℚ))).max?).getD 0

/-- The average per-item score of a batch, as claim C5 speaks of it. -/
def c5AvgScore (threats : List AnalyticsEngine.Threat) : ℚ :=
  (threats.map (fun t => ((AnalyticsEngine.calculateThreatScore t : ℤ) : ℚ))).sum /
    (threats.length : ℚ)

/-- The number of critical-risk-level threats in a batch, as claim C5
speaks of it. -/
def c5CriticalCount (threats : List AnalyticsEngine.Threat) : ℕ :=
  threats.countP (fun t => t.riskLevel = "critical")

/-- The overall risk verdict exactly as claim C5 states it: the fixed
order with the first matching condition winning. -/
def c5Verdict (maxScore avg : ℚ) (criticalCount : ℕ) : String :=
  if 80 ≤ maxScore ∨ 5 ≤ criticalCount then "CRITICAL"
  else if 60 ≤ avg ∨ 2 ≤ criticalCount then "HIGH"
  else if 40 ≤ avg then "MEDIUM"
  else "LOW"

/-- Claim C3's per-pattern contribution: 40 per critical pattern hit,
25 per high, 15 per medium. -/
def c3SeverityScore (severity : String) : ℕ :=
  if severity = "critical" then 40
  else if severity = "high" then 25
  else if severity = "medium" then 15
  else 0

/-- The accumulated risk score exactly as claim C3 states it. -/
def c3Score (patternSeverities : List String) (keywordOccurrences : ℕ)
    (categoryCount : ℕ) : ℕ :=
  (patternSeverities.map c3SeverityScore).sum + min (keywordOccurrences * 5) 30 +
    categoryCount * 8

/-- The bucketing exactly as claim C3 states it: critical at 70, high
at 50, medium at 30, low below. -/
def c3Bucket (s : ℕ) : String :=
  if 70 ≤ s then "critical"
  else if 50 ≤ s then "high"
  else if 30 ≤ s then "medium"
  else "low"

end Claims

/-- The boolean `any` combinator agrees with the decidable bounded
existential it implements. -/
theorem any_eq_decide_bex (l : List String) (p : String → Bool) :
    l.any p = decide (∃ x ∈ l, p x = true) := by
  rw [Bool.eq_iff_iff]
  simp [List.any_eq_true]

/-- Claim C1: for every threat whose risk level is one of
critical/high/medium/low and whose engagement is non-negative,
`calculateThreatScore` equals the closed-form
`min(round((base + min(engagement/1000*20, 20)) * platformFactor + bonus), 100)`
with the fixed base table, platform factor table (defaulting to 1.0)
and the +15 sensitive-data bonus. -/
theorem c1_calculateThreatScore_closed_form (t : AnalyticsEngine.Threat)
    (hL : t.riskLevel = "critical" ∨ t.riskLevel = "high" ∨ t.riskLevel = "medium" ∨
      t.riskLevel = "low")
    (_hE : 0 ≤ t.engagement) :
    AnalyticsEngine.calculateThreatScore t = Claims.c1Formula t := by
  have hbase : AnalyticsEngine.riskScores t.riskLevel = Claims.c1Base t.riskLevel := by
    unfold AnalyticsEngine.riskScores Claims.c1Base
    rcases hL with h | h | h | h <;> simp [h]
  unfold AnalyticsEngine.calculateThreatScore Claims.c1Formula Claims.c1Bonus
  rw [hbase, any_eq_decide_bex]
  by_cases h : ∃ dt ∈ AnalyticsEngine.sensitiveDataTypes, jsIncludes t.dataType dt = true
  · simp [h]
  · simp [h]

/-- Witness for C1 at a concrete threat. -/
theorem c1_witness :
    ("critical" = "critical" ∨ "critical" = "high" ∨ "critical" = "medium" ∨
      "critical" = "low") ∧
    (0 : ℚ) ≤ 2500 ∧
    AnalyticsEngine.calculateThreatScore
      ⟨"GitHub", "alice", "critical", "API Keys", 2500, none⟩ =
      Claims.c1Formula ⟨"GitHub", "alice", "critical", "API Keys", 2500, none⟩ :=
  ⟨Or.inl rfl, by norm_num,
    c1_calculateThreatScore_closed_form
      ⟨"GitHub", "alice", "critical", "API Keys", 2500, none⟩ (Or.inl rfl) (by norm_num)⟩

/-- The base-score table is non-negative for every level string. -/
theorem riskScores_nonneg (level : String) : 0 ≤ AnalyticsEngine.riskScores level := by
  unfold AnalyticsEngine.riskScores
  split_ifs <;> norm_num

/-- Every platform-reach factor, including the default, is positive. -/
theorem platformReachFactors_pos (p : String) : 0 < AnalyticsEngine.platformReachFactors p := by
  unfold AnalyticsEngine.platformReachFactors
  split_ifs <;> norm_num

/-- Rounding is monotone on the rationals. -/
theorem round_mono_rat {a b : ℚ} (h : a ≤ b) : round a ≤ round b := by
  rw [round_eq, round_eq]
  exact Int.floor_mono (by linarith)

/-- Rounding a non-negative rational gives a non-negative integer. -/
theorem round_nonneg_rat {a : ℚ} (h : 0 ≤ a) : 0 ≤ round a := by
  rw [round_eq]
  exact Int.le_floor.mpr (by push_cast; linarith)

/-- Claim C6: with risk level, platform and data type held fixed and a
non-negative engagement, `calculateThreatScore` stays within `[0, 100]`,
is monotonically non-decreasing in engagement, and is constant once the
engagement reaches the 1000-engagement cap. -/
theorem c6_score_bounds_and_monotone (t : AnalyticsEngine.Threat) (e e' : ℚ)
    (he : 0 ≤ e) (hee' : e ≤ e') :
    (0 ≤ AnalyticsEngine.calculateThreatScore { t with engagement := e } ∧
      AnalyticsEngine.calculateThreatScore { t with engagement := e } ≤ 100) ∧
    AnalyticsEngine.calculateThreatScore { t with engagement := e } ≤
      AnalyticsEngine.calculateThreatScore { t with engagement := e' } ∧
    (1000 ≤ e →
      AnalyticsEngine.calculateThreatScore { t with engagement := e } =
        AnalyticsEngine.calculateThreatScore { t with engagement := e' }) := by
  have hB := riskScores_nonneg t.riskLevel
  have hF := platformReachFactors_pos (jsToLower t.platform)
  have hme : 0 ≤ min (e / 1000 * 20) 20 :=
    le_min (mul_nonneg (div_nonneg he (by norm_num)) (by norm_num)) (by norm_num)
  have hmono : min (e / 1000 * 20) 20 ≤ min (e' / 1000 * 20) 20 := by
    apply min_le_min _ le_rfl
    have : e / 1000 ≤ e' / 1000 := by linarith
    linarith
  simp only [AnalyticsEngine.calculateThreatScore]
  set B := AnalyticsEngine.riskScores t.riskLevel with hBdef
  set F := AnalyticsEngine.platformReachFactors (jsToLower t.platform) with hFdef
  set E := min (e / 1000 * 20) 20 with hEdef
  set E' := min (e' / 1000 * 20) 20 with hE'def
  rcases hc : AnalyticsEngine.sensitiveDataTypes.any fun dt => jsIncludes t.dataType dt with _ | _
  all_goals simp only [hc, if_true, if_false, Bool.false_eq_true]
  · refine ⟨⟨?_, min_le_right _ _⟩, ?_, ?_⟩
    · exact le_min (round_nonneg_rat (mul_nonneg (add_nonneg hB hme) hF.le)) (by norm_num)
    · exact min_le_min (round_mono_rat
        (mul_le_mul_of_nonneg_right (add_le_add_left hmono B) hF.le)) le_rfl
    · intro hcap
      have h1 : E = 20 := min_eq_right (by
        rw [div_mul_eq_mul_div, le_div_iff₀ (by norm_num : (0:ℚ) < 1000)]
        linarith)
      have h2 : E' = 20 := min_eq_right (by
        rw [div_mul_eq_mul_div, le_div_iff₀ (by norm_num : (0:ℚ) < 1000)]
        linarith)
      rw [h1, h2]
  · refine ⟨⟨?_, min_le_right _ _⟩, ?_, ?_⟩
    · refine le_min (round_nonneg_rat ?_) (by norm_num)
      have := mul_nonneg (add_nonneg hB hme) hF.le
      linarith
    · refine min_le_min (round_mono_rat ?_) le_rfl
      have := mul_le_mul_of_nonneg_right (add_le_add_left hmono B) hF.le
      linarith
    · intro hcap
      have h1 : E = 20 := min_eq_right (by
        rw [div_mul_eq_mul_div, le_div_iff₀ (by norm_num : (0:ℚ) < 1000)]
        linarith)
      have h2 : E' = 20 := min_eq_right (by
        rw [div_mul_eq_mul_div, le_div_iff₀ (by norm_num : (0:ℚ) < 1000)]
        linarith)
      rw [h1, h2]

/-- Witness for C6 at a concrete threat and engagement pair. -/
theorem c6_witness :
    (0 : ℚ) ≤ 500 ∧ (500 : ℚ) ≤ 2000 ∧
    ((0 ≤ AnalyticsEngine.calculateThreatScore
        ⟨"twitter", "bob", "high", "Source Code", 500, none⟩ ∧
      AnalyticsEngine.calculateThreatScore
        ⟨"twitter", "bob", "high", "Source Code", 500, none⟩ ≤ 100) ∧
    AnalyticsEngine.calculateThreatScore
        ⟨"twitter", "bob", "high", "Source Code", 500, none⟩ ≤
      AnalyticsEngine.calculateThreatScore
        ⟨"twitter", "bob", "high", "Source Code", 2000, none⟩ ∧
    ((1000 : ℚ) ≤ 500 →
      AnalyticsEngine.calculateThreatScore
          ⟨"twitter", "bob", "high", "Source Code", 500, none⟩ =
        AnalyticsEngine.calculateThreatScore
          ⟨"twitter", "bob", "high", "Source Code", 2000, none⟩)) :=
  ⟨by norm_num, by norm_num,
    c6_score_bounds_and_monotone ⟨"twitter", "bob", "high", "Source Code", 500, none⟩
      500 2000 (by norm_num) (by norm_num)⟩

/-- Claim C8: a batch of exactly one threat yields no correlations at
all, since every data-type group and every username group has a single
member. -/
theorem c8_singleton_no_correlations (t : AnalyticsEngine.Threat) :
    AnalyticsEngine.identifyCorrelations [t] = [] := by
  unfold AnalyticsEngine.identifyCorrelations groupByKey groupPush
  by_cases h : t.dataType = "" <;> simp [h, List.filter]

/-- Claim C9: the eviction sweep keeps exactly the cache entries whose
`generatedAt` is at most 30 days (in milliseconds) before `now` —
younger reports survive unmodified, strictly older ones are removed —
and performs no other mutation (the result is a sublist of the
cache). -/
theorem c9_clearOldReports_exact (now : ℤ)
    (cache : List (String × AnalyticsEngine.Report)) :
    (∀ id r, (id, r) ∈ AnalyticsEngine.clearOldReports now cache ↔
      ((id, r) ∈ cache ∧ now - 30 * 24 * 60 * 60 * 1000 ≤ r.generatedAt)) ∧
    (AnalyticsEngine.clearOldReports now cache).Sublist cache := by
  constructor
  · intro id r
    unfold AnalyticsEngine.clearOldReports
    rw [List.mem_filter]
    simp [not_lt]
  · exact List.filter_sublist _

/-- Claim C2 (refuted by the code): on the empty batch the summary's
`averageThreatScore` and the risk assessment's `score` are `NaN` via
`0/0`, the risk assessment's `maxScore` is `-Infinity`, and
`generateThreatReport` does not even return a report — it throws inside
`analyzeTimeline` (`reduce` of an empty array with no initial
value). -/
theorem c2_empty_batch_nan_and_throw :
    (AnalyticsEngine.buildSummary []).totalThreats = 0 ∧
    (AnalyticsEngine.buildSummary []).averageThreatScore = JSNumber.nan ∧
    (AnalyticsEngine.assessOverallRisk []).score = JSNumber.nan ∧
    (AnalyticsEngine.assessOverallRisk []).maxScore = JSNumber.negInf ∧
    ∀ (dl : AnalyticsEngine.DateLib) (now : ℤ) (tf : String)
      (cache : List (String × AnalyticsEngine.Report)),
      AnalyticsEngine.generateThreatReport dl now [] tf cache =
        Except.error "Reduce of empty array with no initial value" := by
  refine ⟨rfl, ?_, ?_, ?_, fun dl now tf cache => rfl⟩
  · rfl
  · rfl
  · rfl

/-- The `Math.max` fold over finite scores starting from a finite
accumulator computes the plain maximum fold. -/
theorem foldl_jsMax_fin (a : ℚ) (l : List ℚ) :
    l.foldl (fun m s => m.jsMax (JSNumber.fin s)) (JSNumber.fin a) =
      JSNumber.fin (l.foldl max a) := by
  induction l generalizing a with
  | nil => rfl
  | cons x xs ih => simpa [List.foldl_cons, JSNumber.jsMax] using ih (max a x)

/-- Claim C5: on a non-empty batch the overall risk verdict is the
first-match-wins chain — CRITICAL if the maximum score is at least 80
or there are at least 5 critical threats, else HIGH if the average is
at least 60 or there are at least 2 critical threats, else MEDIUM if
the average is at least 40, else LOW. -/
theorem c5_overall_risk_verdict (threats : List AnalyticsEngine.Threat)
    (h : threats ≠ []) :
    (AnalyticsEngine.assessOverallRisk threats).level =
      Claims.c5Verdict (Claims.c5MaxScore threats) (Claims.c5AvgScore threats)
        (Claims.c5CriticalCount threats) := by
  rcases threats with _ | ⟨x, xs⟩
  · exact absurd rfl h
  · simp only [AnalyticsEngine.assessOverallRisk]
    have hmax : (List.map (fun t => ((AnalyticsEngine.calculateThreatScore t : ℤ) : ℚ))
          (x :: xs)).foldl (fun m s => m.jsMax (JSNumber.fin s)) JSNumber.negInf =
        JSNumber.fin (Claims.c5MaxScore (x :: xs)) := by
      rw [List.map_cons, List.foldl_cons]
      exact foldl_jsMax_fin _ _
    have havg : JSNumber.jsDiv ((List.map (fun t =>
          ((AnalyticsEngine.calculateThreatScore t : ℤ) : ℚ)) (x :: xs)).foldl (· + ·) 0)
          (((List.map (fun t => ((AnalyticsEngine.calculateThreatScore t : ℤ) : ℚ))
            (x :: xs)).length : ℚ)) =
        JSNumber.fin (Claims.c5AvgScore (x :: xs)) := by
      unfold JSNumber.jsDiv
      rw [if_neg (by
        rw [List.length_map, List.length_cons]
        exact_mod_cast Nat.succ_ne_zero xs.length)]
      rw [← List.sum_eq_foldl]
      unfold Claims.c5AvgScore
      rw [List.length_map]
    have hcount : (List.filter (fun t => t.riskLevel = "critical") (x :: xs)).length =
        Claims.c5CriticalCount (x :: xs) :=
      (List.countP_eq_length_filter _ _).symm
    rw [hmax, havg, hcount]
    unfold Claims.c5Verdict
    have h1 : ((JSNumber.fin (Claims.c5MaxScore (x :: xs))).jsGe 80 ||
          decide (Claims.c5CriticalCount (x :: xs) ≥ 5)) = true ↔
        (80 ≤ Claims.c5MaxScore (x :: xs) ∨ 5 ≤ Claims.c5CriticalCount (x :: xs)) := by
      simp [JSNumber.jsGe]
    have h2 : ((JSNumber.fin (Claims.c5AvgScore (x :: xs))).jsGe 60 ||
          decide (Claims.c5CriticalCount (x :: xs) ≥ 2)) = true ↔
        (60 ≤ Claims.c5AvgScore (x :: xs) ∨ 2 ≤ Claims.c5CriticalCount (x :: xs)) := by
      simp [JSNumber.jsGe]
    have h3 : (JSNumber.fin (Claims.c5AvgScore (x :: xs))).jsGe 40 = true ↔
        40 ≤ Claims.c5AvgScore (x :: xs) := by
      simp [JSNumber.jsGe]
    exact if_congr h1 rfl (if_congr h2 rfl (if_congr h3 rfl rfl))

/-- Witness for C5 at a concrete two-threat batch. -/
theorem c5_witness :
    ([(⟨"github", "mallory", "critical", "API Keys", 3000, none⟩ : AnalyticsEngine.Threat),
        ⟨"reddit", "mallory", "low", "Unknown", 0, none⟩] ≠
      ([] : List AnalyticsEngine.Threat)) ∧
    (AnalyticsEngine.assessOverallRisk
        [⟨"github", "mallory", "critical", "API Keys", 3000, none⟩,
          ⟨"reddit", "mallory", "low", "Unknown", 0, none⟩]).level =
      Claims.c5Verdict
        (Claims.c5MaxScore
          [⟨"github", "mallory", "critical", "API Keys", 3000, none⟩,
            ⟨"reddit", "mallory", "low", "Unknown", 0, none⟩])
        (Claims.c5AvgScore
          [⟨"github", "mallory", "critical", "API Keys", 3000, none⟩,
            ⟨"reddit", "mallory", "low", "Unknown", 0, none⟩])
        (Claims.c5CriticalCount
          [⟨"github", "mallory", "critical", "API Keys", 3000, none⟩,
            ⟨"reddit", "mallory", "low", "Unknown", 0, none⟩]) :=
  ⟨by simp,
    c5_overall_risk_verdict
      [⟨"github", "mallory", "critical", "API Keys", 3000, none⟩,
        ⟨"reddit", "mallory", "low", "Unknown", 0, none⟩] (by simp)⟩

/-- The severity fold of `calculateRiskLevel` equals the accumulator
plus the sum of per-pattern contributions. -/
theorem foldl_severity_eq_sum (l : List DataLeakDetectionService.PatternHit) (acc : ℕ) :
    l.foldl (fun s p =>
      if p.severity = "critical" then s + 40
      else if p.severity = "high" then s + 25
      else if p.severity = "medium" then s + 15
      else s) acc =
      acc + ((l.map (fun p => p.severity)).map Claims.c3SeverityScore).sum := by
  induction l generalizing acc with
  | nil => simp
  | cons x xs ih =>
    rw [List.foldl_cons, ih, List.map_cons, List.map_cons, List.sum_cons]
    unfold Claims.c3SeverityScore
    split_ifs <;> omega

/-- The keyword-count fold of `calculateRiskLevel` equals the
accumulator plus the sum of counts. -/
theorem foldl_count_eq_sum (l : List DataLeakDetectionService.KeywordMatch) (acc : ℕ) :
    l.foldl (fun s kw => s + kw.count) acc = acc + (l.map (fun kw => kw.count)).sum := by
  induction l generalizing acc with
  | nil => simp
  | cons x xs ih =>
    rw [List.foldl_cons, ih, List.map_cons, List.sum_cons]
    omega

/-- The `calculateRiskLevel` is exactly the claim C3 classifier on the
accumulated score. -/
theorem calculateRiskLevel_eq_bucket (k : List DataLeakDetectionService.KeywordMatch)
    (p : List DataLeakDetectionService.PatternHit) (d : List String) :
    DataLeakDetectionService.calculateRiskLevel k p d =
      Claims.c3Bucket (Claims.c3Score (p.map (fun h => h.severity))
        ((k.map (fun kw => kw.count)).sum) d.length) := by
  unfold DataLeakDetectionService.calculateRiskLevel Claims.c3Bucket Claims.c3Score
  rw [foldl_severity_eq_sum, foldl_count_eq_sum]
  simp

/-- Claim C3: for every input text (and any enrichment metadata), the
analyzer's risk level is the bucketing of the accumulated score
`S = Σ severity contributions + min(keyword_occurrences * 5, 30) +
categories * 8` at the fixed 70/50/30 breakpoints. -/
theorem c3_risk_level_bucketing (content platform username timestamp : String) :
    (DataLeakDetectionService.analyzeSocialMediaContent content platform username
        timestamp).riskLevel =
      Claims.c3Bucket (Claims.c3Score
        ((DataLeakDetectionService.detectSuspiciousPatterns content).map
          (fun h => h.severity))
        (((DataLeakDetectionService.detectKeywords content).map (fun kw => kw.count)).sum)
        (DataLeakDetectionService.classifyDataExposure content
          (DataLeakDetectionService.detectKeywords content)).length) :=
  calculateRiskLevel_eq_bucket _ _ _

/-- Membership elimination for the `detectSuspiciousPatterns` building
idiom: a conditional append of one report to the list built so far. -/
theorem forall_mem_condAppend {α : Type} {P : α → Prop} {l : List α} {e : α} {c : Prop}
    [Decidable c] (hl : ∀ p ∈ l, P p) (he : P e) :
    ∀ p ∈ (if c then l ++ [e] else l), P p := by
  split_ifs
  · intro p hp
    rcases List.mem_append.mp hp with h | h
    · exact hl p h
    · rw [List.mem_singleton.mp h]
      exact he
  · exact hl

/-- Counterexample to claim C4 as stated: on a text containing six IP
addresses, the IP-address detector reports all six matched substrings —
its example list is not capped at 5 (the source slices only the
API-key and email lists). -/
theorem c4_counterexample :
    ¬ ∀ p ∈ DataLeakDetectionService.detectSuspiciousPatterns
        "1.2.3.4 5.6.7.8 9.10.11.12 13.14.15.16 17.18.19.20 21.22.23.24",
      p.matches'.length ≤ 5 := by decide

/-- Claim C4 as amended: every fired detector's `count` equals the true
total number of matches in the text (the datastore detector is fixed at
count 1 with its single fixed example); the API-key-like and email
detectors cap their example lists at the first 5 matches, while the
IP-address and payment-card detectors report the full match list. -/
theorem c4_amended_counts_and_caps (content : String) :
    ∀ p ∈ DataLeakDetectionService.detectSuspiciousPatterns content,
      (p.type = "API_KEY" →
        p.matches' = (DataLeakDetectionService.apiKeyMatches content).take 5 ∧
        p.count = (DataLeakDetectionService.apiKeyMatches content).length) ∧
      (p.type = "IP_ADDRESS" →
        p.matches' = DataLeakDetectionService.ipMatches content ∧
        p.count = (DataLeakDetectionService.ipMatches content).length) ∧
      (p.type = "EMAIL_ADDRESS" →
        p.matches' = (DataLeakDetectionService.emailMatches content).take 5 ∧
        p.count = (DataLeakDetectionService.emailMatches content).length) ∧
      (p.type = "CREDIT_CARD" →
        p.matches' = DataLeakDetectionService.ccMatches content ∧
        p.count = (DataLeakDetectionService.ccMatches content).length) ∧
      (p.type = "DATABASE_CONNECTION" → p.matches'.length = 1 ∧ p.count = 1) := by
  unfold DataLeakDetectionService.detectSuspiciousPatterns
  refine forall_mem_condAppend
    (forall_mem_condAppend
      (forall_mem_condAppend
        (forall_mem_condAppend
          (forall_mem_condAppend (fun p hp => absurd hp (List.not_mem_nil p)) ?_) ?_) ?_) ?_) ?_
  · exact ⟨fun _ => ⟨rfl, rfl⟩, fun h => by simp at h, fun h => by simp at h,
      fun h => by simp at h, fun h => by simp at h⟩
  · exact ⟨fun h => by simp at h, fun _ => ⟨rfl, rfl⟩, fun h => by simp at h,
      fun h => by simp at h, fun h => by simp at h⟩
  · exact ⟨fun h => by simp at h, fun h => by simp at h, fun _ => ⟨rfl, rfl⟩,
      fun h => by simp at h, fun h => by simp at h⟩
  · exact ⟨fun h => by simp at h, fun h => by simp at h, fun h => by simp at h,
      fun _ => ⟨rfl, rfl⟩, fun h => by simp at h⟩
  · exact ⟨fun h => by simp at h, fun h => by simp at h, fun h => by simp at h,
      fun h => by simp at h, fun _ => ⟨rfl, rfl⟩⟩

/-- Witness for the amended C4 at a concrete two-IP text and its
IP-address report. -/
theorem c4_amended_witness :
    ((⟨"IP_ADDRESS", "high", ["1.2.3.4", "5.6.7.8"], 2⟩ :
        DataLeakDetectionService.PatternHit) ∈
      DataLeakDetectionService.detectSuspiciousPatterns "1.2.3.4 5.6.7.8") ∧
    (((⟨"IP_ADDRESS", "high", ["1.2.3.4", "5.6.7.8"], 2⟩ :
          DataLeakDetectionService.PatternHit).type = "API_KEY" →
        (⟨"IP_ADDRESS", "high", ["1.2.3.4", "5.6.7.8"], 2⟩ :
            DataLeakDetectionService.PatternHit).matches' =
          (DataLeakDetectionService.apiKeyMatches "1.2.3.4 5.6.7.8").take 5 ∧
        (⟨"IP_ADDRESS", "high", ["1.2.3.4", "5.6.7.8"], 2⟩ :
            DataLeakDetectionService.PatternHit).count =
          (DataLeakDetectionService.apiKeyMatches "1.2.3.4 5.6.7.8").length) ∧
      ((⟨"IP_ADDRESS", "high", ["1.2.3.4", "5.6.7.8"], 2⟩ :
          DataLeakDetectionService.PatternHit).type = "IP_ADDRESS" →
        (⟨"IP_ADDRESS", "high", ["1.2.3.4", "5.6.7.8"], 2⟩ :
            DataLeakDetectionService.PatternHit).matches' =
          DataLeakDetectionService.ipMatches "1.2.3.4 5.6.7.8" ∧
        (⟨"IP_ADDRESS", "high", ["1.2.3.4", "5.6.7.8"], 2⟩ :
            DataLeakDetectionService.PatternHit).count =
          (DataLeakDetectionService.ipMatches "1.2.3.4 5.6.7.8").length) ∧
      ((⟨"IP_ADDRESS", "high", ["1.2.3.4", "5.6.7.8"], 2⟩ :
          DataLeakDetectionService.PatternHit).type = "EMAIL_ADDRESS" →
        (⟨"IP_ADDRESS", "high", ["1.2.3.4", "5.6.7.8"], 2⟩ :
            DataLeakDetectionService.PatternHit).matches' =
          (DataLeakDetectionService.emailMatches "1.2.3.4 5.6.7.8").take 5 ∧
        (⟨"IP_ADDRESS", "high", ["1.2.3.4", "5.6.7.8"], 2⟩ :
            DataLeakDetectionService.PatternHit).count =
          (DataLeakDetectionService.emailMatches "1.2.3.4 5.6.7.8").length) ∧
      ((⟨"IP_ADDRESS", "high", ["1.2.3.4", "5.6.7.8"], 2⟩ :
          DataLeakDetectionService.PatternHit).type = "CREDIT_CARD" →
        (⟨"IP_ADDRESS", "high", ["1.2.3.4", "5.6.7.8"], 2⟩ :
            DataLeakDetectionService.PatternHit).matches' =
          DataLeakDetectionService.ccMatches "1.2.3.4 5.6.7.8" ∧
        (⟨"IP_ADDRESS", "high", ["1.2.3.4", "5.6.7.8"], 2⟩ :
            DataLeakDetectionService.PatternHit).count =
          (DataLeakDetectionService.ccMatches "1.2.3.4 5.6.7.8").length) ∧
      ((⟨"IP_ADDRESS", "high", ["1.2.3.4", "5.6.7.8"], 2⟩ :
          DataLeakDetectionService.PatternHit).type = "DATABASE_CONNECTION" →
        (⟨"IP_ADDRESS", "high", ["1.2.3.4", "5.6.7.8"], 2⟩ :
            DataLeakDetectionService.PatternHit).matches'.length = 1 ∧
        (⟨"IP_ADDRESS", "high", ["1.2.3.4", "5.6.7.8"], 2⟩ :
            DataLeakDetectionService.PatternHit).count = 1)) :=
  ⟨by decide,
    c4_amended_counts_and_caps "1.2.3.4 5.6.7.8"
      ⟨"IP_ADDRESS", "high", ["1.2.3.4", "5.6.7.8"], 2⟩ (by decide)⟩

/-- Claim C7: analyzing the exact leak scenario text yields keyword
matches for "database", "schema" and "API key" (one occurrence each),
exactly one structural hit of the API-key kind (severity critical),
inferred categories containing both "Database Schema" and
"API Keys/Secrets" (and exactly two categories), and a critical risk
level (score 40 + min(3*5, 30) + 2*8 = 71 ≥ 70). -/
theorem c7_scenario_critical :
    ("database" ∈ (DataLeakDetectionService.analyzeSocialMediaContent
        "Our database schema and API key ABCDEFGHIJKLMNOPQRSTUVWXYZ123456 were leaked"
        "github" "insider" "2024-01-01").matchedKeywords.map
        (fun k => k.keyword) ∧
      "schema" ∈ (DataLeakDetectionService.analyzeSocialMediaContent
        "Our database schema and API key ABCDEFGHIJKLMNOPQRSTUVWXYZ123456 were leaked"
        "github" "insider" "2024-01-01").matchedKeywords.map
        (fun k => k.keyword) ∧
      "API key" ∈ (DataLeakDetectionService.analyzeSocialMediaContent
        "Our database schema and API key ABCDEFGHIJKLMNOPQRSTUVWXYZ123456 were leaked"
        "github" "insider" "2024-01-01").matchedKeywords.map
        (fun k => k.keyword)) ∧
    (DataLeakDetectionService.analyzeSocialMediaContent
        "Our database schema and API key ABCDEFGHIJKLMNOPQRSTUVWXYZ123456 were leaked"
        "github" "insider" "2024-01-01").suspiciousElements.map
        (fun p => (p.type, p.severity)) = [("API_KEY", "critical")] ∧
    ("Database Schema" ∈ (DataLeakDetectionService.analyzeSocialMediaContent
        "Our database schema and API key ABCDEFGHIJKLMNOPQRSTUVWXYZ123456 were leaked"
        "github" "insider" "2024-01-01").dataExposed ∧
      "API Keys/Secrets" ∈ (DataLeakDetectionService.analyzeSocialMediaContent
        "Our database schema and API key ABCDEFGHIJKLMNOPQRSTUVWXYZ123456 were leaked"
        "github" "insider" "2024-01-01").dataExposed ∧
      (DataLeakDetectionService.analyzeSocialMediaContent
        "Our database schema and API key ABCDEFGHIJKLMNOPQRSTUVWXYZ123456 were leaked"
        "github" "insider" "2024-01-01").dataExposed.length = 2) ∧
    ((DataLeakDetectionService.analyzeSocialMediaContent
        "Our database schema and API key ABCDEFGHIJKLMNOPQRSTUVWXYZ123456 were leaked"
        "github" "insider" "2024-01-01").matchedKeywords.map
        (fun k => k.count)).sum = 3 ∧
    (DataLeakDetectionService.analyzeSocialMediaContent
        "Our database schema and API key ABCDEFGHIJKLMNOPQRSTUVWXYZ123456 were leaked"
        "github" "insider" "2024-01-01").riskLevel = "critical" := by
  decide

/-- Claim C10 (implicit frame effect): the service's
`identifyTopThreats` sorts its argument array in place, so after
`generateThreatReport` returns, the caller's array is the stable
descending-severity-rank permutation of the original (not its original
order): it equals the modelled in-place sort result, is a permutation
of the input, and is pairwise sorted by non-increasing severity
rank. -/
theorem c10_generateThreatReport_sorts_callers_array
    (leakAnalyses : List DataLeakDetectionService.Analysis)
    (_hv : ∀ a ∈ leakAnalyses, a.riskLevel = "critical" ∨ a.riskLevel = "high" ∨
      a.riskLevel = "medium" ∨ a.riskLevel = "low")
    (_hne : leakAnalyses ≠ []) (now : ℤ) (tf : String) :
    (DataLeakDetectionService.generateThreatReport now leakAnalyses tf).2 =
      jsSortByKeyDesc (fun a => DataLeakDetectionService.severityMap a.riskLevel)
        leakAnalyses ∧
    (DataLeakDetectionService.generateThreatReport now leakAnalyses tf).2.Perm
      leakAnalyses ∧
    (DataLeakDetectionService.generateThreatReport now leakAnalyses tf).2.Pairwise
      (fun x y => DataLeakDetectionService.severityMap y.riskLevel ≤
        DataLeakDetectionService.severityMap x.riskLevel) := by
  refine ⟨rfl, ?_, ?_⟩
  · exact List.perm_insertionSort _ _
  · exact List.sorted_insertionSort
      (byKeyDesc (fun a => DataLeakDetectionService.severityMap a.riskLevel)) leakAnalyses

/-- Witness for C10 at a concrete two-analysis batch whose original
order is ascending (low before critical), so the sweep visibly reorders
the caller's array. -/
theorem c10_witness :
    (∀ a ∈ ([⟨"t1", "github", "u1", "c1", [], "low", [], [], [], 0⟩,
        ⟨"t2", "reddit", "u2", "c2", [], "critical", [], [], [], 0⟩] :
        List DataLeakDetectionService.Analysis),
      a.riskLevel = "critical" ∨ a.riskLevel = "high" ∨
        a.riskLevel = "medium" ∨ a.riskLevel = "low") ∧
    ([⟨"t1", "github", "u1", "c1", [], "low", [], [], [], 0⟩,
        ⟨"t2", "reddit", "u2", "c2", [], "critical", [], [], [], 0⟩] :
      List DataLeakDetectionService.Analysis) ≠ [] ∧
    ((DataLeakDetectionService.generateThreatReport 0
        [⟨"t1", "github", "u1", "c1", [], "low", [], [], [], 0⟩,
          ⟨"t2", "reddit", "u2", "c2", [], "critical", [], [], [], 0⟩] "24h").2 =
      jsSortByKeyDesc (fun a => DataLeakDetectionService.severityMap a.riskLevel)
        [⟨"t1", "github", "u1", "c1", [], "low", [], [], [], 0⟩,
          ⟨"t2", "reddit", "u2", "c2", [], "critical", [], [], [], 0⟩] ∧
    (DataLeakDetectionService.generateThreatReport 0
        [⟨"t1", "github", "u1", "c1", [], "low", [], [], [], 0⟩,
          ⟨"t2", "reddit", "u2", "c2", [], "critical", [], [], [], 0⟩] "24h").2.Perm
      [⟨"t1", "github", "u1", "c1", [], "low", [], [], [], 0⟩,
        ⟨"t2", "reddit", "u2", "c2", [], "critical", [], [], [], 0⟩] ∧
    (DataLeakDetectionService.generateThreatReport 0
        [⟨"t1", "github", "u1", "c1", [], "low", [], [], [], 0⟩,
          ⟨"t2", "reddit", "u2", "c2", [], "critical", [], [], [], 0⟩] "24h").2.Pairwise
      (fun x y => DataLeakDetectionService.severityMap y.riskLevel ≤
        DataLeakDetectionService.severityMap x.riskLevel)) :=
  ⟨by decide, by decide,
    c10_generateThreatReport_sorts_callers_array
      [⟨"t1", "github", "u1", "c1", [], "low", [], [], [], 0⟩,
        ⟨"t2", "reddit", "u2", "c2", [], "critical", [], [], [], 0⟩]
      (by decide) (by decide) 0 "24h"⟩
